import Mathlib

/-!
Verification of the exploration/reflection control loop of
`scripts/self_explorer_figma.py` (function `run_exploration`) against its
natural-language specification.

The loop is embedded as a pure state machine.  External collaborators
(the vision-language model, the Selenium browser driver, the Figma node
snapshot) are modelled as an environment trace supplying, for each round,
the parsed model decision, the parsed reflection verdict, and the driver
success flags.  The parsed shapes follow the spec's ActionDecision and
ReflectionVerdict tagged variants, since the parsers (`model.py`) and the
controller (`figma_controller.py`) are external to the analysed sources.
Everything else — the round counter, the uninteresting-uid set, the
last-action memory, the documentation store with Python-dict semantics,
the element-list filtering, Python list indexing (including negative
indices), the center-point arithmetic, the break/continue structure and
the surrounding try/except — is translated directly from the source.
-/

namespace SelfExplorer

/-- A UI element as used by the loop: its stable identifier and its
bounding box (top-left, bottom-right), in screen coordinates. -/
structure UIElem where
  uid : String
  bbox : (ℚ × ℚ) × (ℚ × ℚ)
deriving DecidableEq, Repr

/-- Parsed exploration decision, the spec's ActionDecision tagged variant
(output of `parse_explore_rsp`, which lives outside the analysed sources). -/
inductive Act where
  | FINISH
  | tap (area : Int)
  | long_press (area : Int)
  | swipe (area : Int) (dir : String) (dist : String)
  | text
  | undefined
deriving DecidableEq, Repr

/-- Outcome of the exploration model call: failure (`status` false), or a
parsed decision together with the raw last-action text (`res[-1]`). -/
inductive DecideOutcome where
  | modelFail
  | parsed (act : Act) (lastAct : String)
deriving DecidableEq, Repr

/-- Parsed reflection verdict, the spec's ReflectionVerdict tagged variant
(output of `parse_reflect_rsp`); UNKNOWN stands for any unrecognized
decision string, which the loop treats as "Undefined decision". -/
inductive Verdict where
  | INEFFECTIVE
  | BACK
  | CONTINUE
  | SUCCESS
  | ERROR
  | UNKNOWN
deriving DecidableEq, Repr

/-- Outcome of the reflection model call: failure, or a parsed verdict with
the accompanying documentation string (`res[-1]`). -/
inductive ReflectOutcome where
  | modelFail
  | parsed (v : Verdict) (doc : String)
deriving DecidableEq, Repr

/-- A driver primitive invocation, recorded with the point (and swipe
parameters) actually passed to the Selenium controller. -/
inductive DriverCall where
  | tapC (p : ℚ × ℚ)
  | longPressC (p : ℚ × ℚ)
  | swipeC (p : ℚ × ℚ) (dir : String) (dist : String)
  | backC
deriving DecidableEq, Repr

/-- Environment data for one round: the UI-node snapshot (the output of
`UIElement.process_node_data` for the current node), the exploration model
outcome, the driver success flags for the gesture and for `back()`, and the
reflection model outcome. -/
structure RoundEnv where
  snapshot : List UIElem
  decision : DecideOutcome
  actOk : Bool
  backOk : Bool
  reflect : ReflectOutcome

/-- The full environment of a session: per-round data (indexed by the round
counter value of that round, starting at 1) and the stop flag as observed
by `stop_event.is_set()` at the top of the loop when `round_count = n`. -/
structure Env where
  rounds : Nat → RoundEnv
  stopAt : Nat → Bool

/-- Session configuration: `MAX_ROUNDS` and the canvas offset `(x, y)`
established at initialization. -/
structure Config where
  maxRounds : Nat
  offX : ℚ
  offY : ℚ

/-- Documentation record for one uid: a Python dict from action-kind key to
documentation text, kept in insertion order. -/
abbrev DocRec := List (String × String)

/-- The documentation store (`docs_dir`): uid to documentation record. -/
abbrev DocsStore := List (String × DocRec)

/-- Python dict lookup: `d[k]` as an Option (none models KeyError). -/
def dget {α : Type} : List (String × α) → String → Option α
  | [], _ => none
  | (k', v) :: rest, k => if k' = k then some v else dget rest k

/-- Python dict assignment `d[k] = v`: update in place if the key exists,
otherwise append the new key. -/
def dset {α : Type} : List (String × α) → String → α → List (String × α)
  | [], k, v => [(k, v)]
  | (k', v') :: rest, k, v =>
      if k' = k then (k, v) :: rest else (k', v') :: dset rest k v

/-- The fresh documentation record created when no file exists for a uid. -/
def emptyDoc : DocRec :=
  [("tap", ""), ("text", ""), ("v_swipe", ""), ("h_swipe", ""), ("long_press", "")]

/-- Boolean membership in a list of strings (`uid in useless_list`). -/
def memStr (u : String) : List String → Bool
  | [] => false
  | v :: rest => if v = u then true else memStr u rest

/-- Adding a uid to the uninteresting set (`useless_list.add(uid)`). -/
def addUseless (u : String) (l : List String) : List String :=
  if memStr u l then l else u :: l

/-- Python list indexing `l[i]`: a negative index counts from the end; an
index that resolves outside the list is an IndexError, modelled as none. -/
def pyGet {α : Type} (l : List α) (i : Int) : Option α :=
  let j : Int := if i < 0 then i + l.length else i
  if 0 ≤ j then l.get? j.toNat else none

/-- Exploration state owned by the loop: round counter, documentation
counter, uninteresting-uid set, last-action memory, task-complete flag,
the documentation store, and the trace of driver calls made so far. -/
structure St where
  roundCount : Nat
  docCount : Nat
  uselessList : List String
  lastAct : String
  taskComplete : Bool
  docs : DocsStore
  driverCalls : List DriverCall
deriving DecidableEq, Repr

/-- Initial state at the top of `run_exploration`. -/
def initSt : St :=
  { roundCount := 0, docCount := 0, uselessList := [], lastAct := "None",
    taskComplete := false, docs := [], driverCalls := [] }

/-- The result dictionary returned by `run_exploration`; optional fields
model keys that are present only on some paths. -/
structure ResultObj where
  status : String
  task_complete : Option Bool
  rounds : Option Nat
  docs_generated : Option Nat
  message : Option String
deriving DecidableEq, Repr

/-- The result built after the loop exits normally. -/
def finalResult (s : St) : ResultObj :=
  { status := if s.taskComplete then "success" else "incomplete",
    task_complete := some s.taskComplete,
    rounds := some s.roundCount,
    docs_generated := some s.docCount,
    message := none }

/-- The result built by the `except` handler wrapping the whole function. -/
def crashResult (m : String) : ResultObj :=
  { status := "error", task_complete := none, rounds := none,
    docs_generated := none, message := some ("Error during exploration: " ++ m) }

/-- Outcome of one loop iteration: continue to the next round, break out of
the loop, or raise an exception (the carried state records the side effects
performed before the exception; the handler discards it). -/
inductive RoundOut where
  | next (s : St)
  | halt (s : St)
  | crash (m : String) (s : St)
deriving DecidableEq, Repr

/-- The state carried by a round outcome. -/
def RoundOut.st : RoundOut → St
  | .next s => s
  | .halt s => s
  | .crash _ s => s

/-- The element list of the current round: the snapshot filtered by the
uninteresting set, preserving order. -/
def elemListFor (env : Env) (s : St) : List UIElem :=
  ((env.rounds (s.roundCount + 1)).snapshot).filter
    (fun e => !(memStr e.uid s.uselessList))

/-- The interaction point for an element: the geometric center of its
bounding box translated by the canvas offset. -/
def interactionPoint (cfg : Config) (e : UIElem) : ℚ × ℚ :=
  ((e.bbox.1.1 + e.bbox.2.1) / 2 + cfg.offX,
   (e.bbox.1.2 + e.bbox.2.2) / 2 + cfg.offY)

/-- The documentation write of the reflection phase: look up the record for
`uid`; if the slot for `actName` already holds truthy (non-empty) text, skip
(store unchanged, counter not incremented, modelled by the `false` flag);
otherwise set the slot and persist, incrementing the counter (`true` flag).
none models the KeyError raised by `doc_content[act_name]` when an existing
record has no such key. -/
def writeDoc (docs : DocsStore) (uid actName doc : String) :
    Option (DocsStore × Bool) :=
  match dget docs uid with
  | some record =>
    match dget record actName with
    | none => none
    | some existing =>
      if existing ≠ "" then some (docs, false)
      else some (dset docs uid (dset record actName doc), true)
  | none => some (dset docs uid (dset emptyDoc actName doc), true)

/-- The documentation-writing tail of a round, after the verdict updates. -/
def docPhase (s3 : St) (e : UIElem) (actName doc : String) : RoundOut :=
  match writeDoc s3.docs e.uid actName doc with
  | none => .crash ("'" ++ actName ++ "'") s3
  | some (docs', written) =>
    .next { s3 with docs := docs',
                    docCount := s3.docCount + (if written then 1 else 0) }

/-- The reflection phase of a round: dispatch on the reflection outcome and
verdict, updating the uninteresting set and last-action memory, invoking
`back()` on a BACK verdict, and writing documentation where the source
does. -/
def reflectPhase (renv : RoundEnv) (s2 : St) (e : UIElem) (actName : String) :
    RoundOut :=
  match renv.reflect with
  | .modelFail => .halt s2
  | .parsed v doc =>
    match v with
    | .ERROR => .halt s2
    | .UNKNOWN => .halt s2
    | .INEFFECTIVE =>
      .next { s2 with uselessList := addUseless e.uid s2.uselessList,
                      lastAct := "None" }
    | .BACK =>
      let s3 : St :=
        { s2 with uselessList := addUseless e.uid s2.uselessList,
                  lastAct := "None",
                  driverCalls := s2.driverCalls ++ [.backC] }
      if renv.backOk then docPhase s3 e actName doc else .halt s3
    | .CONTINUE =>
      let s3 : St :=
        { s2 with uselessList := addUseless e.uid s2.uselessList,
                  lastAct := "None" }
      docPhase s3 e actName doc
    | .SUCCESS => docPhase s2 e actName doc

/-- One iteration of the while loop, from after the stop check to the next
boundary: increment the round counter, build the element list, obtain the
decision, execute it (recording the driver call), and reflect.  A swipe
decision raises ValueError at the `_, area = res` unpack: the same `res`
would have to unpack to two values there and to three values at the
`_, swipe_dir, dist = res` unpack of the swipe branch, which is impossible,
so the round aborts before the index is resolved and before any driver
call (with a parse result carrying index, direction and distance, the
two-value unpack is the one that fails). -/
def roundStep (cfg : Config) (env : Env) (s : St) : RoundOut :=
  let renv := env.rounds (s.roundCount + 1)
  let elemList := elemListFor env s
  match renv.decision with
  | .modelFail => .halt { s with roundCount := s.roundCount + 1 }
  | .parsed act la =>
    let s1 : St := { s with roundCount := s.roundCount + 1, lastAct := la }
    match act with
    | .FINISH => .halt { s1 with taskComplete := true }
    | .text => .halt s1
    | .undefined => .halt s1
    | .tap a =>
      match pyGet elemList (a - 1) with
      | none => .crash "list index out of range" s1
      | some e =>
        let s2 : St :=
          { s1 with driverCalls :=
              s1.driverCalls ++ [.tapC (interactionPoint cfg e)] }
        if renv.actOk then reflectPhase renv s2 e "tap" else .halt s2
    | .long_press a =>
      match pyGet elemList (a - 1) with
      | none => .crash "list index out of range" s1
      | some e =>
        let s2 : St :=
          { s1 with driverCalls :=
              s1.driverCalls ++ [.longPressC (interactionPoint cfg e)] }
        if renv.actOk then reflectPhase renv s2 e "long_press" else .halt s2
    | .swipe _ _ _ =>
      .crash "too many values to unpack (expected 2)" s1

/-- The while loop, fuel-bounded: the loop condition, the stop check at the
round boundary, one round step, and the result construction on exit
(`finalResult` for normal exits, `crashResult` for the except handler). -/
def runFrom (cfg : Config) (env : Env) : Nat → St → ResultObj
  | 0, s => finalResult s
  | f + 1, s =>
    if s.roundCount < cfg.maxRounds then
      if env.stopAt s.roundCount then finalResult s
      else
        match roundStep cfg env s with
        | .next s' => runFrom cfg env f s'
        | .halt s' => finalResult s'
        | .crash m _ => crashResult m
    else finalResult s

/-- A whole session: run the loop from the initial state.  `maxRounds` fuel
suffices because each round increments the counter by exactly one. -/
def runExploration (cfg : Config) (env : Env) : ResultObj :=
  runFrom cfg env cfg.maxRounds initSt

/-- The element index carried by a decision, when it has one. -/
def Act.area? : Act → Option Int
  | .tap a => some a
  | .long_press a => some a
  | .swipe a _ _ => some a
  | _ => none

/-- The element a round's decision acts on: the decision's 1-based index
resolved against the current element list with Python indexing. -/
def actedElem (env : Env) (s : St) : Option UIElem :=
  match (env.rounds (s.roundCount + 1)).decision with
  | .parsed act _ =>
    match act.area? with
    | some a => pyGet (elemListFor env s) (a - 1)
    | none => none
  | .modelFail => none

/-- The verdict the round's reflection call parsed to, if any. -/
def reflectVerdict (env : Env) (s : St) : Option Verdict :=
  match (env.rounds (s.roundCount + 1)).reflect with
  | .parsed v _ => some v
  | .modelFail => none

/-- Iterating complete rounds (`.next` outcomes) from a state: the state at
the loop top after n further rounds, when no round broke or raised. -/
def iterRounds (cfg : Config) (env : Env) : Nat → St → Option St
  | 0, s => some s
  | n + 1, s =>
    match roundStep cfg env s with
    | .next s' => iterRounds cfg env n s'
    | _ => none

end SelfExplorer

namespace SelfExplorer

theorem memStr_eq_true {u : String} {l : List String} :
    memStr u l = true ↔ u ∈ l := by
  induction l with
  | nil => simp [memStr]
  | cons v rest ih =>
    by_cases h : v = u
    · subst h; simp [memStr]
    · have h' : ¬u = v := fun hh => h hh.symm
      simp [memStr, h, ih, List.mem_cons, h']

theorem mem_addUseless_of_mem {u : String} (v : String) {l : List String}
    (h : u ∈ l) : u ∈ addUseless v l := by
  unfold addUseless
  split
  · exact h
  · exact List.mem_cons_of_mem _ h

theorem self_mem_addUseless (v : String) (l : List String) :
    v ∈ addUseless v l := by
  unfold addUseless
  split
  next h => exact memStr_eq_true.mp h
  next h => exact List.mem_cons_self _ _

theorem docPhase_st_useless (s3 : St) (e : UIElem) (k d : String) :
    (docPhase s3 e k d).st.uselessList = s3.uselessList := by
  unfold docPhase
  cases h : writeDoc s3.docs e.uid k d with
  | none => rfl
  | some p => cases p; rfl

theorem docPhase_st_round (s3 : St) (e : UIElem) (k d : String) :
    (docPhase s3 e k d).st.roundCount = s3.roundCount := by
  unfold docPhase
  cases h : writeDoc s3.docs e.uid k d with
  | none => rfl
  | some p => cases p; rfl

theorem docPhase_st_calls (s3 : St) (e : UIElem) (k d : String) :
    (docPhase s3 e k d).st.driverCalls = s3.driverCalls := by
  unfold docPhase
  cases h : writeDoc s3.docs e.uid k d with
  | none => rfl
  | some p => cases p; rfl

theorem reflectPhase_st_round (renv : RoundEnv) (s2 : St) (e : UIElem)
    (k : String) : (reflectPhase renv s2 e k).st.roundCount = s2.roundCount := by
  unfold reflectPhase
  cases renv.reflect with
  | modelFail => rfl
  | parsed v doc =>
    cases v with
    | ERROR => rfl
    | UNKNOWN => rfl
    | INEFFECTIVE => rfl
    | BACK =>
      dsimp only
      split
      · rw [docPhase_st_round]
      · rfl
    | CONTINUE => exact docPhase_st_round _ _ _ _
    | SUCCESS => exact docPhase_st_round _ _ _ _

theorem reflectPhase_useless_mono (renv : RoundEnv) (s2 : St) (e : UIElem)
    (k : String) {u : String} (hu : u ∈ s2.uselessList) :
    u ∈ (reflectPhase renv s2 e k).st.uselessList := by
  unfold reflectPhase
  cases renv.reflect with
  | modelFail => exact hu
  | parsed v doc =>
    cases v with
    | ERROR => exact hu
    | UNKNOWN => exact hu
    | INEFFECTIVE => exact mem_addUseless_of_mem _ hu
    | BACK =>
      dsimp only
      split
      · rw [docPhase_st_useless]; exact mem_addUseless_of_mem _ hu
      · exact mem_addUseless_of_mem _ hu
    | CONTINUE =>
      rw [docPhase_st_useless]; exact mem_addUseless_of_mem _ hu
    | SUCCESS =>
      rw [docPhase_st_useless]; exact hu

theorem reflectPhase_st_calls (renv : RoundEnv) (s2 : St) (e : UIElem)
    (k : String) :
    ∃ r, (reflectPhase renv s2 e k).st.driverCalls = s2.driverCalls ++ r := by
  unfold reflectPhase
  cases renv.reflect with
  | modelFail => exact ⟨[], (List.append_nil _).symm⟩
  | parsed v doc =>
    cases v with
    | ERROR => exact ⟨[], (List.append_nil _).symm⟩
    | UNKNOWN => exact ⟨[], (List.append_nil _).symm⟩
    | INEFFECTIVE => exact ⟨[], (List.append_nil _).symm⟩
    | BACK =>
      dsimp only
      split
      · exact ⟨[.backC], by rw [docPhase_st_calls]⟩
      · exact ⟨[.backC], rfl⟩
    | CONTINUE =>
      exact ⟨[], by rw [docPhase_st_calls]; exact (List.append_nil _).symm⟩
    | SUCCESS =>
      exact ⟨[], by rw [docPhase_st_calls]; exact (List.append_nil _).symm⟩

end SelfExplorer

namespace SelfExplorer

theorem roundStep_st_round (cfg : Config) (env : Env) (s : St) :
    (roundStep cfg env s).st.roundCount = s.roundCount + 1 := by
  unfold roundStep
  dsimp only
  split
  · rfl
  · split
    · rfl
    · rfl
    · rfl
    · split
      · rfl
      · split
        · rw [reflectPhase_st_round]
        · rfl
    · split
      · rfl
      · split
        · rw [reflectPhase_st_round]
        · rfl
    · rfl

theorem roundStep_useless_mono (cfg : Config) (env : Env) (s : St)
    {u : String} (hu : u ∈ s.uselessList) :
    u ∈ (roundStep cfg env s).st.uselessList := by
  unfold roundStep
  dsimp only
  split
  · exact hu
  · split
    · exact hu
    · exact hu
    · exact hu
    · split
      · exact hu
      · split
        · exact reflectPhase_useless_mono _ _ _ _ hu
        · exact hu
    · split
      · exact hu
      · split
        · exact reflectPhase_useless_mono _ _ _ _ hu
        · exact hu
    · exact hu

theorem iterRounds_useless_mono (cfg : Config) (env : Env) {u : String} :
    ∀ (n : Nat) (s s' : St), iterRounds cfg env n s = some s' →
      u ∈ s.uselessList → u ∈ s'.uselessList := by
  intro n
  induction n with
  | zero =>
    intro s s' h hu
    cases h
    exact hu
  | succ n ih =>
    intro s s' h hu
    unfold iterRounds at h
    cases hrs : roundStep cfg env s with
    | next s₂ =>
      rw [hrs] at h
      have hu₂ : u ∈ s₂.uselessList := by
        have := roundStep_useless_mono cfg env s hu
        rw [hrs] at this
        exact this
      exact ih s₂ s' h hu₂
    | halt s₂ => rw [hrs] at h; exact absurd h (by simp)
    | crash m s₂ => rw [hrs] at h; exact absurd h (by simp)

theorem elemListFor_excludes (env : Env) (s : St) {u : String}
    (hu : u ∈ s.uselessList) :
    ∀ e' ∈ elemListFor env s, e'.uid ≠ u := by
  intro e' he' heq
  have hmem := List.mem_filter.mp he'
  have hfalse : memStr e'.uid s.uselessList = false := by
    have := hmem.2
    simpa using this
  rw [heq] at hfalse
  have := memStr_eq_true.mpr hu
  rw [hfalse] at this
  exact Bool.false_ne_true this

end SelfExplorer

namespace SelfExplorer

theorem reflectPhase_next_useless (renv : RoundEnv) (s2 : St) (e : UIElem)
    (k : String) (s₁ : St) (v : Verdict) (doc : String)
    (hr : renv.reflect = .parsed v doc)
    (h : reflectPhase renv s2 e k = .next s₁) :
    ((v = .INEFFECTIVE ∨ v = .BACK ∨ v = .CONTINUE) →
      e.uid ∈ s₁.uselessList) ∧
    (v = .SUCCESS → s₁.uselessList = s2.uselessList) := by
  unfold reflectPhase at h
  rw [hr] at h
  cases v with
  | ERROR => exact absurd h (by simp)
  | UNKNOWN => exact absurd h (by simp)
  | INEFFECTIVE =>
    dsimp only at h
    injection h with h'
    constructor
    · intro _
      rw [← h']
      exact self_mem_addUseless _ _
    · intro hv
      exact absurd hv (by simp)
  | BACK =>
    dsimp only at h
    split at h
    · have hst : (docPhase
          { s2 with uselessList := addUseless e.uid s2.uselessList,
                    lastAct := "None",
                    driverCalls := s2.driverCalls ++ [.backC] } e k doc).st = s₁ := by
        rw [h]
        rfl
      constructor
      · intro _
        rw [← hst, docPhase_st_useless]
        exact self_mem_addUseless _ _
      · intro hv
        exact absurd hv (by simp)
    · exact absurd h (by simp)
  | CONTINUE =>
    dsimp only at h
    have hst : (docPhase
        { s2 with uselessList := addUseless e.uid s2.uselessList,
                  lastAct := "None" } e k doc).st = s₁ := by
      rw [h]
      rfl
    constructor
    · intro _
      rw [← hst, docPhase_st_useless]
      exact self_mem_addUseless _ _
    · intro hv
      exact absurd hv (by simp)
  | SUCCESS =>
    dsimp only at h
    have hst : (docPhase s2 e k doc).st = s₁ := by
      rw [h]
      rfl
    constructor
    · intro hv
      exact absurd hv (by simp)
    · intro _
      rw [← hst, docPhase_st_useless]

end SelfExplorer

namespace SelfExplorer

theorem roundStep_next_acted (cfg : Config) (env : Env) (s s₁ : St)
    (e : UIElem) (v : Verdict)
    (h1 : actedElem env s = some e)
    (h2 : reflectVerdict env s = some v)
    (h3 : roundStep cfg env s = .next s₁) :
    ((v = .INEFFECTIVE ∨ v = .BACK ∨ v = .CONTINUE) →
      e.uid ∈ s₁.uselessList) ∧
    (v = .SUCCESS → s₁.uselessList = s.uselessList) := by
  cases hdec : (env.rounds (s.roundCount + 1)).decision with
  | modelFail =>
    unfold actedElem at h1
    rw [hdec] at h1
    exact absurd h1 (by simp)
  | parsed act la =>
    unfold roundStep at h3
    dsimp only at h3
    rw [hdec] at h3
    dsimp only at h3
    unfold actedElem at h1
    rw [hdec] at h1
    dsimp only at h1
    cases act with
    | FINISH => exact absurd h1 (by simp [Act.area?])
    | text => exact absurd h1 (by simp [Act.area?])
    | undefined => exact absurd h1 (by simp [Act.area?])
    | tap a =>
      dsimp only [Act.area?] at h1
      dsimp only at h3
      rw [h1] at h3
      dsimp only at h3
      split at h3
      · cases hr : (env.rounds (s.roundCount + 1)).reflect with
        | modelFail =>
          unfold reflectVerdict at h2
          rw [hr] at h2
          exact absurd h2 (by simp)
        | parsed v' doc =>
          unfold reflectVerdict at h2
          rw [hr] at h2
          dsimp only at h2
          injection h2 with h2'
          subst h2'
          have hkey := reflectPhase_next_useless _ _ _ _ _ _ _ hr h3
          exact ⟨hkey.1, fun hv => hkey.2 hv⟩
      · exact absurd h3 (by simp)
    | long_press a =>
      dsimp only [Act.area?] at h1
      dsimp only at h3
      rw [h1] at h3
      dsimp only at h3
      split at h3
      · cases hr : (env.rounds (s.roundCount + 1)).reflect with
        | modelFail =>
          unfold reflectVerdict at h2
          rw [hr] at h2
          exact absurd h2 (by simp)
        | parsed v' doc =>
          unfold reflectVerdict at h2
          rw [hr] at h2
          dsimp only at h2
          injection h2 with h2'
          subst h2'
          have hkey := reflectPhase_next_useless _ _ _ _ _ _ _ hr h3
          exact ⟨hkey.1, fun hv => hkey.2 hv⟩
      · exact absurd h3 (by simp)
    | swipe a dir dist =>
      dsimp only at h3
      exact absurd h3 (by simp)

end SelfExplorer

namespace SelfExplorer

/-- Sample element with bounding box ((10,10),(30,30)), used by concrete
witnesses below. -/
def elemA : UIElem := ⟨"uidA", ((10, 10), (30, 30))⟩

/-- Second sample element. -/
def elemB : UIElem := ⟨"uidB", ((0, 0), (4, 8))⟩

/-- Sample configuration: three rounds maximum, canvas offset (5, 7). -/
def cfgW : Config := ⟨3, 5, 7⟩

/-- C2: for every (uid, action-kind) pair, once the documentation store
holds a non-empty text for that pair, a later documentation write for the
same pair with any (possibly different) text returns the store unchanged
together with the `false` written-flag — so the stored text is unchanged
and the documentation counter is not incremented — and consequently the
whole documentation tail of a round is a no-op on the state. -/
theorem C2_doc_write_idempotent (docs : DocsStore) (uid k d t : String)
    (record : DocRec) (h1 : dget docs uid = some record)
    (h2 : dget record k = some t) (h3 : t ≠ "") :
    writeDoc docs uid k d = some (docs, false) ∧
    ∀ (s3 : St) (e : UIElem), s3.docs = docs → e.uid = uid →
      docPhase s3 e k d = .next s3 := by
  have hw : writeDoc docs uid k d = some (docs, false) := by
    unfold writeDoc
    rw [h1]
    dsimp only
    rw [h2]
    dsimp only
    rw [if_pos h3]
  refine ⟨hw, ?_⟩
  intro s3 e hs he
  subst hs
  subst he
  unfold docPhase
  rw [hw]
  rfl

/-- Sample documentation store holding a non-empty tap entry for uidA. -/
def docsW : DocsStore :=
  [("uidA", [("tap", "opens settings"), ("text", ""), ("v_swipe", ""),
             ("h_swipe", ""), ("long_press", "")])]

/-- Witness for C2: a second tap write for uidA with different text leaves
the concrete store unchanged and reports no increment. -/
theorem C2_witness :
    writeDoc docsW "uidA" "tap" "different text" = some (docsW, false) :=
  (C2_doc_write_idempotent docsW "uidA" "tap" "different text"
    "opens settings"
    [("tap", "opens settings"), ("text", ""), ("v_swipe", ""),
     ("h_swipe", ""), ("long_press", "")]
    (by decide) (by decide) (by decide)).1

/-- C3: within a round that completes (continues to the next round), the
uninteresting set is append-only; an INEFFECTIVE, BACK or CONTINUE verdict
puts the acted element's uid into the set, where it remains for every state
reachable by further complete rounds, and it is excluded from the element
list of every such subsequent round; a SUCCESS verdict leaves the set
exactly unchanged. -/
theorem C3_uninteresting_set (cfg : Config) (env : Env) (s s₁ : St)
    (e : UIElem) (v : Verdict)
    (h1 : actedElem env s = some e)
    (h2 : reflectVerdict env s = some v)
    (h3 : roundStep cfg env s = .next s₁) :
    (∀ u ∈ s.uselessList, u ∈ s₁.uselessList) ∧
    ((v = .INEFFECTIVE ∨ v = .BACK ∨ v = .CONTINUE) →
      e.uid ∈ s₁.uselessList ∧
      ∀ (n : Nat) (s' : St), iterRounds cfg env n s₁ = some s' →
        e.uid ∈ s'.uselessList ∧
        ∀ e' ∈ elemListFor env s', e'.uid ≠ e.uid) ∧
    (v = .SUCCESS → s₁.uselessList = s.uselessList) := by
  have hacted := roundStep_next_acted cfg env s s₁ e v h1 h2 h3
  refine ⟨?_, ?_, hacted.2⟩
  · intro u hu
    have := roundStep_useless_mono cfg env s hu
    rw [h3] at this
    exact this
  · intro hv
    have hadd := hacted.1 hv
    refine ⟨hadd, ?_⟩
    intro n s' hiter
    have hmem := iterRounds_useless_mono cfg env n s₁ s' hiter hadd
    exact ⟨hmem, elemListFor_excludes env s' hmem⟩

/-- Round environment for the C3 witness, round 1: tap element 1, the
reflection judges BACK. -/
def reC3a : RoundEnv :=
  ⟨[elemA, elemB], .parsed (.tap 1) "tapped A", true, true,
   .parsed .BACK "navigates away"⟩

/-- Round environment for the C3 witness, later rounds: tap element 1, the
reflection judges SUCCESS. -/
def reC3b : RoundEnv :=
  ⟨[elemA, elemB], .parsed (.tap 1) "tapped again", true, true,
   .parsed .SUCCESS "works"⟩

/-- Environment for the C3 witness. -/
def envC3 : Env := ⟨fun n => if n = 1 then reC3a else reC3b, fun _ => false⟩

/-- State after round 1 of the C3 witness scenario. -/
def s1C3 : St := (roundStep cfgW envC3 initSt).st

/-- Witness for C3: after a BACK verdict on uidA in round 1, uidA is in the
uninteresting set, stays there after a further complete round, and is
excluded from that round's element list. -/
theorem C3_witness :
    "uidA" ∈ s1C3.uselessList ∧
    ∀ (s' : St), iterRounds cfgW envC3 1 s1C3 = some s' →
      "uidA" ∈ s'.uselessList ∧ ∀ e' ∈ elemListFor envC3 s', e'.uid ≠ "uidA" := by
  have h := C3_uninteresting_set cfgW envC3 initSt s1C3 elemA .BACK
      rfl rfl rfl
  have h2 := h.2.1 (Or.inr (Or.inl rfl))
  exact ⟨h2.1, fun s' hs' => h2.2 1 s' hs'⟩

end SelfExplorer

namespace SelfExplorer

/-- C1 (amended): a `text` decision falls into the catch-all `else: break`
of the execution dispatch, so the loop terminates at once: the round
counter stays at the round of the decision, no reflection or documentation
happens, the uninteresting set, documentation store and driver-call trace
are untouched, and the session returns status "incomplete" — it does not
proceed to the next round. -/
theorem C1_text_breaks_loop (cfg : Config) (env : Env) (s : St)
    (la : String) (f : Nat)
    (h1 : s.roundCount < cfg.maxRounds)
    (h2 : env.stopAt s.roundCount = false)
    (h3 : (env.rounds (s.roundCount + 1)).decision = .parsed .text la)
    (h4 : s.taskComplete = false) :
    roundStep cfg env s =
      .halt { s with roundCount := s.roundCount + 1, lastAct := la } ∧
    runFrom cfg env (f + 1) s =
      { status := "incomplete", task_complete := some false,
        rounds := some (s.roundCount + 1), docs_generated := some s.docCount,
        message := none } := by
  have hstep : roundStep cfg env s =
      .halt { s with roundCount := s.roundCount + 1, lastAct := la } := by
    unfold roundStep
    dsimp only
    rw [h3]
  refine ⟨hstep, ?_⟩
  unfold runFrom
  rw [if_pos h1, h2]
  rw [if_neg (by decide)]
  rw [hstep]
  dsimp only [RoundOut.st, finalResult]
  rw [h4]
  rfl

/-- Round environment whose decision is the `text` action kind. -/
def reC1text : RoundEnv :=
  ⟨[elemA, elemB], .parsed .text "typed hello", true, true,
   .parsed .SUCCESS "typed"⟩

/-- Round environment whose decision is FINISH. -/
def reFinish : RoundEnv :=
  ⟨[elemA, elemB], .parsed .FINISH "done", true, true, .parsed .SUCCESS "ok"⟩

/-- Environment for the C1 counterexample: `text` in round 1, FINISH in
every later round. -/
def envC1 : Env := ⟨fun n => if n = 1 then reC1text else reFinish, fun _ => false⟩

/-- Counterexample for C1 as stated: with three rounds allowed, a `text`
decision in round 1 and a FINISH waiting in round 2, the session ends at
round 1 with status "incomplete" — round 2 is never started, so a `text`
decision terminates the session instead of looping back to the next round
start. -/
theorem C1_counterexample :
    runExploration cfgW envC1 =
      { status := "incomplete", task_complete := some false,
        rounds := some 1, docs_generated := some 0, message := none } ∧
    (envC1.rounds 2).decision = .parsed .FINISH "done" ∧
    cfgW.maxRounds = 3 := by
  refine ⟨?_, rfl, rfl⟩
  decide

/-- Witness for the amended C1 theorem at a concrete input. -/
theorem C1_witness :
    runFrom cfgW envC1 3 initSt =
      { status := "incomplete", task_complete := some false,
        rounds := some 1, docs_generated := some 0, message := none } :=
  (C1_text_breaks_loop cfgW envC1 initSt "typed hello" 2
    (by decide) (by decide) rfl rfl).2

/-- C4: a FINISH decision at round k terminates the loop immediately: the
round counter equals k, the task-complete flag is set, nothing else in the
state changes (no action is executed and no reflection happens, so the
uninteresting set, documentation store, counter and driver-call trace are
untouched), and the final result reports status "success" with round count
k. -/
theorem C4_finish_terminates (cfg : Config) (env : Env) (s : St)
    (la : String) (f : Nat)
    (h1 : s.roundCount < cfg.maxRounds)
    (h2 : env.stopAt s.roundCount = false)
    (h3 : (env.rounds (s.roundCount + 1)).decision = .parsed .FINISH la) :
    roundStep cfg env s =
      .halt { s with roundCount := s.roundCount + 1, lastAct := la,
                     taskComplete := true } ∧
    runFrom cfg env (f + 1) s =
      { status := "success", task_complete := some true,
        rounds := some (s.roundCount + 1), docs_generated := some s.docCount,
        message := none } := by
  have hstep : roundStep cfg env s =
      .halt { s with roundCount := s.roundCount + 1, lastAct := la,
                     taskComplete := true } := by
    unfold roundStep
    dsimp only
    rw [h3]
  refine ⟨hstep, ?_⟩
  unfold runFrom
  rw [if_pos h1, h2]
  rw [if_neg (by decide)]
  rw [hstep]
  rfl

/-- Environment for the C4 witness: FINISH in round 1. -/
def envC4 : Env := ⟨fun _ => reFinish, fun _ => false⟩

/-- Witness for C4 at a concrete input: FINISH in round 1 of a three-round
session gives status "success" with round count 1 and no documentation. -/
theorem C4_witness :
    runFrom cfgW envC4 3 initSt =
      { status := "success", task_complete := some true,
        rounds := some 1, docs_generated := some 0, message := none } :=
  (C4_finish_terminates cfgW envC4 initSt "done" 2
    (by decide) (by decide) rfl).2

/-- C5: a decision of the three gesture kinds whose 1-based index does not
resolve in the current element list aborts the whole session with no retry
and result status "error".  For tap and long_press the abort is the
IndexError raised by `elem_list[area - 1]`; for swipe it is the ValueError
raised by the `_, area = res` unpack, which fires before the index is even
consulted (so an out-of-range swipe aborts with the unpack message rather
than the IndexError one). -/
theorem C5_out_of_range_aborts (cfg : Config) (env : Env) (s : St)
    (act : Act) (la : String) (a : Int) (f : Nat)
    (h1 : s.roundCount < cfg.maxRounds)
    (h2 : env.stopAt s.roundCount = false)
    (h3 : (env.rounds (s.roundCount + 1)).decision = .parsed act la)
    (h4 : act.area? = some a)
    (h5 : pyGet (elemListFor env s) (a - 1) = none) :
    ((act = .tap a ∨ act = .long_press a) →
      runFrom cfg env (f + 1) s =
        { status := "error", task_complete := none, rounds := none,
          docs_generated := none,
          message := some "Error during exploration: list index out of range" }) ∧
    (∀ dir dist : String, act = .swipe a dir dist →
      runFrom cfg env (f + 1) s =
        { status := "error", task_complete := none, rounds := none,
          docs_generated := none,
          message := some
            "Error during exploration: too many values to unpack (expected 2)" }) ∧
    (runFrom cfg env (f + 1) s).status = "error" := by
  have hrunFrom : ∀ (m : String) (sx : St),
      roundStep cfg env s = .crash m sx →
      runFrom cfg env (f + 1) s = crashResult m := by
    intro m sx hc
    unfold runFrom
    rw [if_pos h1, h2]
    rw [if_neg (by decide)]
    rw [hc]
  cases act with
  | FINISH => exact absurd h4 (by simp [Act.area?])
  | text => exact absurd h4 (by simp [Act.area?])
  | undefined => exact absurd h4 (by simp [Act.area?])
  | tap a' =>
    dsimp only [Act.area?] at h4
    injection h4 with h4'
    subst h4'
    have hstep : roundStep cfg env s = .crash "list index out of range"
        { s with roundCount := s.roundCount + 1, lastAct := la } := by
      unfold roundStep
      dsimp only
      rw [h3]
      dsimp only
      rw [h5]
    have hrun := hrunFrom _ _ hstep
    refine ⟨fun _ => by rw [hrun]; rfl, ?_, by rw [hrun]; rfl⟩
    intro dir dist habs
    exact absurd habs (by simp)
  | long_press a' =>
    dsimp only [Act.area?] at h4
    injection h4 with h4'
    subst h4'
    have hstep : roundStep cfg env s = .crash "list index out of range"
        { s with roundCount := s.roundCount + 1, lastAct := la } := by
      unfold roundStep
      dsimp only
      rw [h3]
      dsimp only
      rw [h5]
    have hrun := hrunFrom _ _ hstep
    refine ⟨fun _ => by rw [hrun]; rfl, ?_, by rw [hrun]; rfl⟩
    intro dir dist habs
    exact absurd habs (by simp)
  | swipe a' dir' dist' =>
    dsimp only [Act.area?] at h4
    injection h4 with h4'
    subst h4'
    have hstep : roundStep cfg env s =
        .crash "too many values to unpack (expected 2)"
          { s with roundCount := s.roundCount + 1, lastAct := la } := by
      unfold roundStep
      dsimp only
      rw [h3]
    have hrun := hrunFrom _ _ hstep
    refine ⟨?_, fun dir dist _ => by rw [hrun]; rfl, by rw [hrun]; rfl⟩
    rintro (habs | habs) <;> exact absurd habs (by simp)

/-- Environment for the C5 witness, tap case: round 1 decides tap(5)
against a two-element list. -/
def envC5 : Env :=
  ⟨fun _ => ⟨[elemA, elemB], .parsed (.tap 5) "tapped 5", true, true,
             .parsed .SUCCESS "ok"⟩, fun _ => false⟩

/-- Environment for the C5 witness, swipe case: round 1 decides swipe(5)
against a two-element list. -/
def envC5s : Env :=
  ⟨fun _ => ⟨[elemA, elemB], .parsed (.swipe 5 "up" "medium") "swiped 5",
             true, true, .parsed .SUCCESS "ok"⟩, fun _ => false⟩

/-- Witness for C5 at concrete inputs: tap(5) on a two-element list ends
the session with the IndexError "error" result, and swipe(5) on the same
list ends it with the ValueError "error" result. -/
theorem C5_witness :
    runFrom cfgW envC5 3 initSt =
      { status := "error", task_complete := none, rounds := none,
        docs_generated := none,
        message := some "Error during exploration: list index out of range" } ∧
    runFrom cfgW envC5s 3 initSt =
      { status := "error", task_complete := none, rounds := none,
        docs_generated := none,
        message := some
          "Error during exploration: too many values to unpack (expected 2)" } :=
  ⟨(C5_out_of_range_aborts cfgW envC5 initSt (.tap 5) "tapped 5" 5 2
      (by decide) (by decide) rfl rfl (by decide)).1 (Or.inl rfl),
   (C5_out_of_range_aborts cfgW envC5s initSt (.swipe 5 "up" "medium")
      "swiped 5" 5 2
      (by decide) (by decide) rfl rfl (by decide)).2.1 "up" "medium" rfl⟩

end SelfExplorer

namespace SelfExplorer

/-- C6 (amended): every session result is either the normal-exit dictionary
or the exception-handler dictionary.  The normal one (also produced by the
fatal loop-break paths: protocol violation, driver failure, model-call
failure, reflection ERROR) carries a status of "success" or "incomplete",
the round and documentation counts and the task flag, but no message; the
exception one carries status "error" and a human-readable message, but no
round or documentation counts.  So every status is drawn from
success/incomplete/error, but no path reports all the fields at once. -/
theorem C6_result_shape (cfg : Config) (env : Env) (f : Nat) (s : St) :
    ((∃ s', runFrom cfg env f s = finalResult s') ∨
     (∃ m, runFrom cfg env f s = crashResult m)) ∧
    (∀ s' : St,
      ((finalResult s').status = "success" ∨
       (finalResult s').status = "incomplete") ∧
      (finalResult s').rounds = some s'.roundCount ∧
      (finalResult s').docs_generated = some s'.docCount ∧
      (finalResult s').task_complete = some s'.taskComplete ∧
      (finalResult s').message = none) ∧
    (∀ m : String,
      (crashResult m).status = "error" ∧
      (crashResult m).message = some ("Error during exploration: " ++ m) ∧
      (crashResult m).rounds = none ∧
      (crashResult m).docs_generated = none ∧
      (crashResult m).task_complete = none) := by
  refine ⟨?_, ?_, ?_⟩
  · induction f generalizing s with
    | zero => exact .inl ⟨s, rfl⟩
    | succ f ih =>
      unfold runFrom
      by_cases hlt : s.roundCount < cfg.maxRounds
      · rw [if_pos hlt]
        by_cases hstop : env.stopAt s.roundCount = true
        · rw [if_pos hstop]
          exact .inl ⟨s, rfl⟩
        · rw [if_neg hstop]
          cases hout : roundStep cfg env s with
          | next s' => exact ih s'
          | halt s' => exact .inl ⟨s', rfl⟩
          | crash m s' => exact .inr ⟨m, rfl⟩
      · rw [if_neg hlt]
        exact .inl ⟨s, rfl⟩
  · intro s'
    refine ⟨?_, rfl, rfl, rfl, rfl⟩
    unfold finalResult
    cases s'.taskComplete with
    | true => exact .inl rfl
    | false => exact .inr rfl
  · intro m
    exact ⟨rfl, rfl, rfl, rfl, rfl⟩

/-- Environment for the C6 counterexample, driver-failure path: round 1
decides tap(1) and the tap gesture fails. -/
def envC6a : Env :=
  ⟨fun _ => ⟨[elemA, elemB], .parsed (.tap 1) "tapped 1", false, true,
             .parsed .SUCCESS "ok"⟩, fun _ => false⟩

/-- Environment for the C6 counterexample, exception path: round 1 decides
tap(7) against a two-element list. -/
def envC6b : Env :=
  ⟨fun _ => ⟨[elemA, elemB], .parsed (.tap 7) "tapped 7", true, true,
             .parsed .SUCCESS "ok"⟩, fun _ => false⟩

/-- Counterexample for C6 as stated: the driver-failure fatal path returns
a result with no message field at all (and status "incomplete", not
"error"), while the exception fatal path returns a result with neither the
round count nor the documentation count.  No fatal path reports status,
both counts and a message together. -/
theorem C6_counterexample :
    (runExploration cfgW envC6a).message = none ∧
    (runExploration cfgW envC6a).status = "incomplete" ∧
    (runExploration cfgW envC6b).status = "error" ∧
    (runExploration cfgW envC6b).rounds = none ∧
    (runExploration cfgW envC6b).docs_generated = none := by
  refine ⟨?_, ?_, ?_, ?_, ?_⟩ <;> decide

/-- C7: the stop flag is read only at the round boundary.  If it is not yet
set when round k starts and the round completes, a stop request pending at
the next boundary ends the session with the state round k produced: the
final round count is k (the count after the completed round), never k-1,
and all of round k's effects are in the reported result. -/
theorem C7_stop_at_boundary (cfg : Config) (env : Env) (s s₁ : St) (f : Nat)
    (h1 : s.roundCount < cfg.maxRounds)
    (h2 : env.stopAt s.roundCount = false)
    (h3 : roundStep cfg env s = .next s₁)
    (h4 : env.stopAt s₁.roundCount = true) :
    runFrom cfg env (f + 2) s = finalResult s₁ ∧
    (runFrom cfg env (f + 2) s).rounds = some (s.roundCount + 1) := by
  have hrc : s₁.roundCount = s.roundCount + 1 := by
    have h := roundStep_st_round cfg env s
    rw [h3] at h
    exact h
  have hmain : runFrom cfg env (f + 2) s = finalResult s₁ := by
    show runFrom cfg env (f + 1 + 1) s = finalResult s₁
    unfold runFrom
    rw [if_pos h1, h2]
    rw [if_neg (by decide)]
    rw [h3]
    show runFrom cfg env (f + 1) s₁ = finalResult s₁
    unfold runFrom
    by_cases hlt : s₁.roundCount < cfg.maxRounds
    · rw [if_pos hlt, if_pos h4]
    · rw [if_neg hlt]
  refine ⟨hmain, ?_⟩
  rw [hmain]
  unfold finalResult
  rw [hrc]

/-- Environment for the C7 witness: every round taps element 1 with a
SUCCESS reflection; the stop flag is observed set at the boundary where the
round counter equals 1. -/
def envC7 : Env :=
  ⟨fun _ => ⟨[elemA, elemB], .parsed (.tap 1) "tapped 1", true, true,
             .parsed .SUCCESS "opens settings panel"⟩,
   fun n => n == 1⟩

/-- State after round 1 of the C7 witness scenario. -/
def s1C7 : St := (roundStep cfgW envC7 initSt).st

/-- Witness for C7 at a concrete input: the stop requested during round 1
is only honoured at the next boundary, and the reported round count is 1,
not 0. -/
theorem C7_witness :
    runFrom cfgW envC7 3 initSt = finalResult s1C7 ∧
    (runFrom cfgW envC7 3 initSt).rounds = some 1 :=
  C7_stop_at_boundary cfgW envC7 initSt s1C7 1
    (by decide) (by decide) rfl (by decide)

end SelfExplorer

namespace SelfExplorer

theorem runFrom_rounds_le (cfg : Config) (env : Env) :
    ∀ (f : Nat) (s : St), s.roundCount ≤ cfg.maxRounds →
      ∀ n, (runFrom cfg env f s).rounds = some n → n ≤ cfg.maxRounds := by
  intro f
  induction f with
  | zero =>
    intro s hs n h
    unfold runFrom at h
    unfold finalResult at h
    dsimp only at h
    injection h with h'
    omega
  | succ f ih =>
    intro s hs n h
    unfold runFrom at h
    by_cases hlt : s.roundCount < cfg.maxRounds
    · rw [if_pos hlt] at h
      by_cases hstop : env.stopAt s.roundCount = true
      · rw [if_pos hstop] at h
        unfold finalResult at h
        dsimp only at h
        injection h with h'
        omega
      · rw [if_neg hstop] at h
        cases hout : roundStep cfg env s with
        | next s' =>
          rw [hout] at h
          have hrc := roundStep_st_round cfg env s
          rw [hout] at hrc
          dsimp only [RoundOut.st] at hrc
          exact ih s' (by omega) n h
        | halt s' =>
          rw [hout] at h
          have hrc := roundStep_st_round cfg env s
          rw [hout] at hrc
          dsimp only [RoundOut.st] at hrc
          unfold finalResult at h
          dsimp only at h
          injection h with h'
          omega
        | crash m s' =>
          rw [hout] at h
          unfold crashResult at h
          dsimp only at h
          exact absurd h (by simp)
    · rw [if_neg hlt] at h
      unfold finalResult at h
      dsimp only at h
      injection h with h'
      omega

/-- C8: the round counter starts at zero; every round increments it by
exactly one (so it is non-decreasing); every round count a session result
reports is bounded by the configured maximum; and a loop exit at the
maximum without the task-complete flag yields status "incomplete" with
`task_complete = false`. -/
theorem C8_round_counter :
    initSt.roundCount = 0 ∧
    (∀ (cfg : Config) (env : Env) (s : St),
      (roundStep cfg env s).st.roundCount = s.roundCount + 1) ∧
    (∀ (cfg : Config) (env : Env) (f : Nat) (s : St) (n : Nat),
      s.roundCount ≤ cfg.maxRounds →
      (runFrom cfg env f s).rounds = some n → n ≤ cfg.maxRounds) ∧
    (∀ (cfg : Config) (env : Env) (f : Nat) (s : St),
      cfg.maxRounds ≤ s.roundCount → s.taskComplete = false →
      runFrom cfg env f s =
        { status := "incomplete", task_complete := some false,
          rounds := some s.roundCount, docs_generated := some s.docCount,
          message := none }) := by
  refine ⟨rfl, roundStep_st_round, ?_, ?_⟩
  · intro cfg env f s n hs h
    exact runFrom_rounds_le cfg env f s hs n h
  · intro cfg env f s hmax htc
    cases f with
    | zero =>
      unfold runFrom
      unfold finalResult
      rw [htc]
      rfl
    | succ f =>
      unfold runFrom
      rw [if_neg (by omega)]
      unfold finalResult
      rw [htc]
      rfl

/-- Environment for the C8 witness: every round taps element 1 and is
judged SUCCESS, so FINISH never happens and the maximum is reached. -/
def envC8 : Env :=
  ⟨fun _ => ⟨[elemA, elemB], .parsed (.tap 1) "tapped 1", true, true,
             .parsed .SUCCESS "fine"⟩, fun _ => false⟩

/-- State with the round counter already at the configured maximum, as
reached by a session that never decided FINISH. -/
def sMaxC8 : St := { initSt with roundCount := 3, docCount := 3 }

/-- Witness for C8 at concrete inputs: a reported round count is bounded by
the maximum, and at the maximum without FINISH the result is "incomplete"
with `task_complete = false`. -/
theorem C8_witness :
    (3 ≤ cfgW.maxRounds) ∧
    runFrom cfgW envC8 5 sMaxC8 =
      { status := "incomplete", task_complete := some false,
        rounds := some 3, docs_generated := some 3, message := none } :=
  ⟨C8_round_counter.2.2.1 cfgW envC8 3 { initSt with roundCount := 2 } 3
      (by decide) (by decide),
   C8_round_counter.2.2.2 cfgW envC8 5 sMaxC8 (by decide) rfl⟩

end SelfExplorer

namespace SelfExplorer

/-- C9 (amended): for a tap or long_press decision whose index resolves to
an element, the driver primitive is invoked at the interaction point of
that element, which is the geometric center of its bounding box translated
by the canvas offset established at initialization.  A swipe decision never
produces a driver call: the round raises ValueError at the `_, area = res`
unpack (the same `res` cannot unpack to two values there and to three in
the swipe branch), aborting the session with the driver-call trace and the
rest of the state untouched. -/
theorem C9_interaction_point (cfg : Config) (env : Env) (s : St)
    (a : Int) (la : String) (e : UIElem) :
    ((env.rounds (s.roundCount + 1)).decision = .parsed (.tap a) la →
      pyGet (elemListFor env s) (a - 1) = some e →
      ∃ r, (roundStep cfg env s).st.driverCalls =
        (s.driverCalls ++ [DriverCall.tapC (interactionPoint cfg e)]) ++ r) ∧
    ((env.rounds (s.roundCount + 1)).decision = .parsed (.long_press a) la →
      pyGet (elemListFor env s) (a - 1) = some e →
      ∃ r, (roundStep cfg env s).st.driverCalls =
        (s.driverCalls ++ [DriverCall.longPressC (interactionPoint cfg e)]) ++ r) ∧
    (∀ dir dist : String,
      (env.rounds (s.roundCount + 1)).decision = .parsed (.swipe a dir dist) la →
      roundStep cfg env s =
        .crash "too many values to unpack (expected 2)"
          { s with roundCount := s.roundCount + 1, lastAct := la }) ∧
    interactionPoint cfg e =
      ((e.bbox.1.1 + e.bbox.2.1) / 2 + cfg.offX,
       (e.bbox.1.2 + e.bbox.2.2) / 2 + cfg.offY) := by
  refine ⟨?_, ?_, ?_, rfl⟩
  · intro h3 hpy
    unfold roundStep
    dsimp only
    rw [h3]
    dsimp only
    rw [hpy]
    dsimp only
    split
    · exact reflectPhase_st_calls _ _ _ _
    · exact ⟨[], (List.append_nil _).symm⟩
  · intro h3 hpy
    unfold roundStep
    dsimp only
    rw [h3]
    dsimp only
    rw [hpy]
    dsimp only
    split
    · exact reflectPhase_st_calls _ _ _ _
    · exact ⟨[], (List.append_nil _).symm⟩
  · intro dir dist h3
    unfold roundStep
    dsimp only
    rw [h3]

/-- Environment for the C9 counterexample: round 1 decides
swipe(1, up, 50) on a list whose first element has bounding box
((10,10),(30,30)), so the index resolves and the spec would expect a
driver swipe at (20,20) plus the offset. -/
def envC9s : Env :=
  ⟨fun _ => ⟨[elemA, elemB], .parsed (.swipe 1 "up" "50") "swiped 1",
             true, true, .parsed .SUCCESS "scrolls"⟩, fun _ => false⟩

/-- Counterexample for C9 as stated: a swipe decision whose index resolves
to the element with box ((10,10),(30,30)) never passes any interaction
point to the driver — the session aborts with the ValueError "error"
result and an empty driver-call trace. -/
theorem C9_counterexample :
    runExploration cfgW envC9s =
      { status := "error", task_complete := none, rounds := none,
        docs_generated := none,
        message := some
          "Error during exploration: too many values to unpack (expected 2)" } ∧
    (roundStep cfgW envC9s initSt).st.driverCalls = [] ∧
    pyGet (elemListFor envC9s initSt) (1 - 1) = some elemA := by
  refine ⟨?_, ?_, ?_⟩ <;> decide

/-- Environment for the C9 witness: round 1 decides tap(2) on a list whose
second element has bounding box ((10,10),(30,30)). -/
def envC9 : Env :=
  ⟨fun _ => ⟨[elemB, elemA], .parsed (.tap 2) "tapped 2", true, true,
             .parsed .SUCCESS "opens settings panel"⟩, fun _ => false⟩

/-- Witness for C9 at a concrete input: tap(2) on the sample list taps the
element with box ((10,10),(30,30)) at its center (20,20) plus the session
offset (5,7), i.e. at (25,27). -/
theorem C9_witness :
    (∃ r, (roundStep cfgW envC9 initSt).st.driverCalls =
      (initSt.driverCalls ++ [DriverCall.tapC (interactionPoint cfgW elemA)]) ++ r) ∧
    interactionPoint cfgW elemA = (25, 27) := by
  refine ⟨(C9_interaction_point cfgW envC9 initSt 2 "tapped 2" elemA).1 rfl rfl, ?_⟩
  unfold interactionPoint cfgW elemA
  norm_num

/-- C10 (amended): Python list indexing makes the out-of-range check
asymmetric: the 1-based index 0 becomes index -1, which
`elem_list[area - 1]` resolves to the last element of a non-empty element
list rather than raising IndexError; for a tap or long_press decision the
gesture is then executed on that last element.  A swipe decision never
reaches the index resolution — it raises ValueError at the `_, area = res`
unpack — so no swipe is executed regardless of its index. -/
theorem C10_index_zero (cfg : Config) (env : Env) (s : St)
    (la : String) (e : UIElem)
    (h4 : (elemListFor env s).getLast? = some e) :
    (∀ (l : List UIElem), pyGet l (0 - 1) = l.getLast?) ∧
    ((env.rounds (s.roundCount + 1)).decision = .parsed (.tap 0) la →
      actedElem env s = some e ∧
      ∃ r, (roundStep cfg env s).st.driverCalls =
        (s.driverCalls ++ [DriverCall.tapC (interactionPoint cfg e)]) ++ r) ∧
    ((env.rounds (s.roundCount + 1)).decision = .parsed (.long_press 0) la →
      actedElem env s = some e ∧
      ∃ r, (roundStep cfg env s).st.driverCalls =
        (s.driverCalls ++ [DriverCall.longPressC (interactionPoint cfg e)]) ++ r) := by
  have hneg : ∀ (l : List UIElem), pyGet l (0 - 1) = l.getLast? := by
    intro l
    unfold pyGet
    dsimp only
    cases l with
    | nil => rfl
    | cons x xs =>
      rw [if_pos (by norm_num : ((0:Int) - 1) < 0)]
      rw [if_pos (by simp [List.length_cons] :
            (0:Int) ≤ 0 - 1 + ((x :: xs).length : Int))]
      have ht : ((0:Int) - 1 + ((x :: xs).length : Int)).toNat = xs.length := by
        simp [List.length_cons]
      rw [ht]
      rw [List.get?_eq_getElem? _ _, List.getLast?_eq_getElem? _]
      congr 1
  have hpy : pyGet (elemListFor env s) (0 - 1) = some e := by
    rw [hneg]
    exact h4
  refine ⟨hneg, ?_, ?_⟩
  · intro h3
    have hacted : actedElem env s = some e := by
      unfold actedElem
      rw [h3]
      dsimp only [Act.area?]
      exact hpy
    refine ⟨hacted, ?_⟩
    unfold roundStep
    dsimp only
    rw [h3]
    dsimp only
    rw [hpy]
    dsimp only
    split
    · exact reflectPhase_st_calls _ _ _ _
    · exact ⟨[], (List.append_nil _).symm⟩
  · intro h3
    have hacted : actedElem env s = some e := by
      unfold actedElem
      rw [h3]
      dsimp only [Act.area?]
      exact hpy
    refine ⟨hacted, ?_⟩
    unfold roundStep
    dsimp only
    rw [h3]
    dsimp only
    rw [hpy]
    dsimp only
    split
    · exact reflectPhase_st_calls _ _ _ _
    · exact ⟨[], (List.append_nil _).symm⟩

/-- Environment for the C10 witness, tap case: round 1 decides tap(0) on a
two-element list ending in the sample element with box ((10,10),(30,30)). -/
def envC10 : Env :=
  ⟨fun _ => ⟨[elemB, elemA], .parsed (.tap 0) "tapped 0", true, true,
             .parsed .SUCCESS "taps the last one"⟩, fun _ => false⟩

/-- Environment for the C10 witness, long_press case: round 1 decides
long_press(0) on the same two-element list. -/
def envC10lp : Env :=
  ⟨fun _ => ⟨[elemB, elemA], .parsed (.long_press 0) "pressed 0", true, true,
             .parsed .SUCCESS "presses the last one"⟩, fun _ => false⟩

/-- Environment for the C10 counterexample: round 1 decides swipe(0) on a
non-empty two-element list. -/
def envC10s : Env :=
  ⟨fun _ => ⟨[elemB, elemA], .parsed (.swipe 0 "down" "short") "swiped 0",
             true, true, .parsed .SUCCESS "scrolls"⟩, fun _ => false⟩

/-- Counterexample for C10 as stated: a swipe decision carrying index 0 on
a non-empty element list executes no action on any element — the session
aborts at the res unpack with the ValueError "error" result and an empty
driver-call trace, even though the list has a last element the index would
resolve to. -/
theorem C10_counterexample :
    runExploration cfgW envC10s =
      { status := "error", task_complete := none, rounds := none,
        docs_generated := none,
        message := some
          "Error during exploration: too many values to unpack (expected 2)" } ∧
    (roundStep cfgW envC10s initSt).st.driverCalls = [] ∧
    (elemListFor envC10s initSt).getLast? = some elemA := by
  refine ⟨?_, ?_, ?_⟩ <;> decide

/-- Witness for C10 at concrete inputs: tap(0) and long_press(0) on the
two-element list each resolve to its last element and execute the gesture
at that element's interaction point. -/
theorem C10_witness :
    (actedElem envC10 initSt = some elemA ∧
     ∃ r, (roundStep cfgW envC10 initSt).st.driverCalls =
       (initSt.driverCalls ++ [DriverCall.tapC (interactionPoint cfgW elemA)]) ++ r) ∧
    (actedElem envC10lp initSt = some elemA ∧
     ∃ r, (roundStep cfgW envC10lp initSt).st.driverCalls =
       (initSt.driverCalls ++
         [DriverCall.longPressC (interactionPoint cfgW elemA)]) ++ r) :=
  ⟨(C10_index_zero cfgW envC10 initSt "tapped 0" elemA rfl).2.1 rfl,
   (C10_index_zero cfgW envC10lp initSt "pressed 0" elemA rfl).2.2 rfl⟩

end SelfExplorer
